import Mathlib

/-!
Shallow embedding of the image-moderation core of
`image-moderation-for-nudity-and-drugs-detection`.

All confidences are modelled as rationals (`ℚ`).  Pure arithmetic and the
branching logic of the Python source (`app/moderation.py`,
`app/drugs_detector.py`, `app/nudity_detector.py`) are translated
definition-by-definition.  The pixel-level OpenCV measurements (mask
coverage ratios, Laplacian variance, Hough-circle counts, blob counts,
contour counts, ...) are the inputs of the embedding: each detector takes
them in a raw-measurement record and performs exactly the arithmetic and
comparisons the source performs on them.
-/

/-- `ModerationService._should_flag`: per-category thresholds,
`thresholds = {nudity: 0.3, drugs: 0.5}` with default `0.75`. -/
def moderationThreshold (category : String) : ℚ :=
  if category = "nudity" then 3/10
  else if category = "drugs" then 1/2
  else 3/4

/-- `ModerationService._should_flag`: `confidence > threshold` (strict). -/
def should_flag (category : String) (confidence : ℚ) : Bool :=
  confidence > moderationThreshold category

/-- The four per-method drug signals, the `detections` dict of
`DrugsDetector._comprehensive_analysis`. -/
structure Detections where
  pills : ℚ
  powder : ℚ
  plants : ℚ
  paraphernalia : ℚ
  deriving DecidableEq

/-- `DrugsDetector._detect_circular_objects`: the validated-circle-count →
confidence ladder (the branch taken when `HoughCircles` returned a candidate
list). -/
def circleConfidence (v : ℕ) : ℚ :=
  if 30 ≤ v then min (49/50) (4/5 + v * (1/200))
  else if 20 ≤ v then min (19/20) (7/10 + v * (1/100))
  else if 10 ≤ v then min (9/10) (3/5 + v * (1/50))
  else if 5 ≤ v then min (17/20) (1/2 + v * (1/20))
  else if 3 ≤ v then min (3/4) (2/5 + v * (2/25))
  else if 1 ≤ v then min (13/20) (3/10 + v * (3/20))
  else 1/5

/-- `DrugsDetector._detect_pill_blobs`: validated-blob-count → confidence
(0 valid blobs, or no keypoints at all, give 0.0). -/
def blobConfidence (n : ℕ) : ℚ :=
  if 5 ≤ n then min (9/10) (1/2 + n * (2/25))
  else if 3 ≤ n then min (4/5) (2/5 + n * (1/10))
  else if 2 ≤ n then min (7/10) (3/10 + n * (3/20))
  else if 1 ≤ n then 1/2
  else 0

/-- `DrugsDetector._detect_pill_colors`: pill-color pixel-coverage ratio →
confidence. -/
def pillColorConfidence (r : ℚ) : ℚ :=
  if r > 3/10 then min (7/10) (r * (3/2))
  else if r > 1/10 then r * 2
  else 0

/-- `DrugsDetector._detect_pill_shapes`: circular-contour count →
confidence. -/
def pillShapeConfidence (n : ℕ) : ℚ :=
  if 3 ≤ n then min (3/5) (1/5 + n * (1/10))
  else if 1 ≤ n then 3/10
  else 0

/-- `DrugsDetector._analyze_powder_texture`: additive score from Laplacian
variance `tv`, smooth-pixel ratio `sm`, bright-pixel ratio `br`, capped at
0.9. -/
def powderTextureScore (tv sm br : ℚ) : ℚ :=
  let t1 : ℚ :=
    if 20 < tv ∧ tv < 300 then min (7/10) (tv / 300)
    else if tv < 20 then 4/5
    else 0
  let t2 : ℚ :=
    if sm > 3/5 then 3/5
    else if sm > 2/5 then 2/5
    else if sm > 1/5 then 1/5
    else 0
  let t3 : ℚ :=
    if br > 3/10 then min (4/5) (br * 2)
    else if br > 1/10 then min (1/2) (br * 3)
    else 0
  min (9/10) (t1 + t2 + t3)

/-- `DrugsDetector._analyze_powder_colors`: maximum of the white / brown /
cream coverage ratios mapped through a five-tier scaling. -/
def powderColorConfidence (w bn cm : ℚ) : ℚ :=
  let r := max w (max bn cm)
  if r > 3/5 then min (19/20) (r * (13/10))
  else if r > 2/5 then min (17/20) (r * (9/5))
  else if r > 1/5 then min (3/4) (r * (5/2))
  else if r > 1/10 then min (3/5) (r * 4)
  else if r > 1/20 then min (2/5) (r * 6)
  else 0

/-- `DrugsDetector._analyze_powder_patterns`: granular-pixel ratio →
confidence. -/
def powderPatternConfidence (g : ℚ) : ℚ :=
  if g > 1/2 then min (4/5) (g * (7/5))
  else if g > 3/10 then min (7/10) (g * 2)
  else if g > 1/10 then min (1/2) (g * 3)
  else 0

/-- `DrugsDetector._analyze_plant_colors`: maximal green coverage ratio →
confidence. -/
def plantColorConfidence (g : ℚ) : ℚ :=
  if g > 1/2 then min (4/5) (g * (6/5))
  else if g > 3/10 then g
  else 0

/-- `DrugsDetector._detect_leaf_patterns`: leaf-like contour count →
confidence. -/
def leafPatternConfidence (n : ℕ) : ℚ :=
  if 3 ≤ n then min (7/10) (3/10 + n * (1/10))
  else if 1 ≤ n then 2/5
  else 0

/-- `DrugsDetector._analyze_plant_texture`: Laplacian variance band check. -/
def plantTextureConfidence (tv : ℚ) : ℚ :=
  if 200 < tv ∧ tv < 2000 then min (3/5) (tv / 2000)
  else 0

/-- `DrugsDetector._detect_pipes`: long-line count → confidence. -/
def pipeConfidence (n : ℕ) : ℚ :=
  if 2 ≤ n then min (3/5) (1/5 + n * (1/10))
  else 0

/-- `DrugsDetector._detect_scales`: 0.7 when a wide rectangular contour of
scale-like aspect ratio is present. -/
def scaleConfidence (found : Bool) : ℚ :=
  if found then 7/10 else 0

/-- `DrugsDetector._detect_syringes`: 0.8 when a very elongated contour of
syringe-like size is present. -/
def syringeConfidence (found : Bool) : ℚ :=
  if found then 4/5 else 0

/-- `DrugsDetector._detect_drug_containers`: stub, always 0.0. -/
def containerConfidence : ℚ := 0

/-- Raw pixel-level measurements feeding the drugs detector: everything the
OpenCV layer extracts from the decoded image before the pure arithmetic of
`drugs_detector.py` takes over. -/
structure DrugsRaw where
  /-- max skin-tone HSV mask coverage (`_detect_skin_tones`) -/
  skin_ratio : ℚ
  /-- smooth-pixel ratio under a (21,21) blur (`_detect_body_smoothness`) -/
  smoothness_ratio : ℚ
  /-- organic large-contour score (`_detect_organic_shapes`) -/
  organic_score : ℚ
  /-- whether `HoughCircles` returned any candidate circles -/
  circles_found : Bool
  /-- candidate circles passing `_validate_pill_circle` -/
  valid_circles : ℕ
  /-- blob-detector keypoints passing the size filter -/
  valid_blobs : ℕ
  /-- pill-color pixel-coverage ratio (`_detect_pill_colors`) -/
  pill_color_ratio : ℚ
  /-- circular contour count (`_detect_pill_shapes`) -/
  pill_shape_count : ℕ
  /-- Laplacian variance of the grayscale image -/
  texture_variance : ℚ
  /-- smooth-pixel ratio under a (15,15) blur (`_analyze_powder_texture`) -/
  powder_smoothness : ℚ
  /-- ratio of pixels with gray value above 200 -/
  bright_ratio : ℚ
  /-- white HSV mask coverage (`_analyze_powder_colors`) -/
  white_ratio : ℚ
  /-- brown HSV mask coverage -/
  brown_ratio : ℚ
  /-- cream HSV mask coverage -/
  cream_ratio : ℚ
  /-- granular-pixel ratio after morphological opening -/
  granular_ratio : ℚ
  /-- maximal green HSV mask coverage (`_analyze_plant_colors`) -/
  max_green_ratio : ℚ
  /-- leaf-like contour count (`_detect_leaf_patterns`) -/
  leaf_shape_count : ℕ
  /-- Laplacian variance used by `_analyze_plant_texture` -/
  plant_texture_variance : ℚ
  /-- count of detected lines longer than 50 px (`_detect_pipes`) -/
  long_line_count : ℕ
  /-- scale-like rectangular contour present (`_detect_scales`) -/
  scale_found : Bool
  /-- syringe-like elongated contour present (`_detect_syringes`) -/
  syringe_found : Bool

/-- `DrugsDetector._detect_pills_advanced`: weighted combination of the four
pill methods, capped at 1.0. -/
def detect_pills_advanced (raw : DrugsRaw) : ℚ :=
  let circ := if raw.circles_found then circleConfidence raw.valid_circles else 0
  min 1 (circ * (2/5) + blobConfidence raw.valid_blobs * (3/10)
    + pillColorConfidence raw.pill_color_ratio * (1/5)
    + pillShapeConfidence raw.pill_shape_count * (1/10))

/-- `DrugsDetector._detect_powder_advanced`. -/
def detect_powder_advanced (raw : DrugsRaw) : ℚ :=
  min 1 (powderTextureScore raw.texture_variance raw.powder_smoothness raw.bright_ratio * (1/2)
    + powderColorConfidence raw.white_ratio raw.brown_ratio raw.cream_ratio * (3/10)
    + powderPatternConfidence raw.granular_ratio * (1/5))

/-- `DrugsDetector._detect_plants_advanced`. -/
def detect_plants_advanced (raw : DrugsRaw) : ℚ :=
  min 1 (plantColorConfidence raw.max_green_ratio * (2/5)
    + leafPatternConfidence raw.leaf_shape_count * (2/5)
    + plantTextureConfidence raw.plant_texture_variance * (1/5))

/-- `DrugsDetector._detect_paraphernalia_advanced`: maximum of the four
sub-methods, capped at 1.0. -/
def detect_paraphernalia_advanced (raw : DrugsRaw) : ℚ :=
  min 1 (max (pipeConfidence raw.long_line_count)
    (max (scaleConfidence raw.scale_found)
      (max (syringeConfidence raw.syringe_found) containerConfidence)))

/-- `DrugsDetector._detect_nudity_context`: the body/nudity-context
boolean. -/
def detect_nudity_context (raw : DrugsRaw) : Bool :=
  raw.skin_ratio > 3/10
    || (raw.skin_ratio > 3/20 && raw.smoothness_ratio > 1/2)
    || (raw.skin_ratio > 1/5 && raw.organic_score > 3/10)

/-- The four unpenalized signals of `_comprehensive_analysis`. -/
def baseDetections (raw : DrugsRaw) : Detections :=
  ⟨detect_pills_advanced raw, detect_powder_advanced raw,
   detect_plants_advanced raw, detect_paraphernalia_advanced raw⟩

/-- `_comprehensive_analysis`: when the nudity context is raised every drug
signal is multiplied by the fixed penalty 0.3 before fusion. -/
def comprehensiveDetections (raw : DrugsRaw) : Detections :=
  let d := baseDetections raw
  if detect_nudity_context raw then
    ⟨d.pills * (3/10), d.powder * (3/10), d.plants * (3/10), d.paraphernalia * (3/10)⟩
  else d

/-- `strong_indicators` of `_calculate_overall_confidence`: signals above
0.6. -/
def strongCount (d : Detections) : ℕ :=
  (if d.pills > 3/5 then 1 else 0) + (if d.powder > 3/5 then 1 else 0)
    + (if d.plants > 3/5 then 1 else 0) + (if d.paraphernalia > 3/5 then 1 else 0)

/-- `moderate_indicators`: signals in (0.3, 0.6]. -/
def moderateCount (d : Detections) : ℕ :=
  (if 3/10 < d.pills ∧ d.pills ≤ 3/5 then 1 else 0)
    + (if 3/10 < d.powder ∧ d.powder ≤ 3/5 then 1 else 0)
    + (if 3/10 < d.plants ∧ d.plants ≤ 3/5 then 1 else 0)
    + (if 3/10 < d.paraphernalia ∧ d.paraphernalia ≤ 3/5 then 1 else 0)

/-- `weak_indicators`: signals in (0.1, 0.3]. -/
def weakCount (d : Detections) : ℕ :=
  (if 1/10 < d.pills ∧ d.pills ≤ 3/10 then 1 else 0)
    + (if 1/10 < d.powder ∧ d.powder ≤ 3/10 then 1 else 0)
    + (if 1/10 < d.plants ∧ d.plants ≤ 3/10 then 1 else 0)
    + (if 1/10 < d.paraphernalia ∧ d.paraphernalia ≤ 3/10 then 1 else 0)

/-- `DrugsDetector._calculate_overall_confidence`: weighted sum
(pills 0.50, powder 0.35, plants 0.10, paraphernalia 0.05), a tiered boost
multiplier (first matching rule wins), and the 0.98 ceiling. -/
def calculate_overall_confidence (d : Detections) : ℚ :=
  let ws := d.pills * (1/2) + d.powder * (7/20) + d.plants * (1/10)
    + d.paraphernalia * (1/20)
  let ws2 :=
    if 2 ≤ strongCount d then ws * 2
    else if 1 ≤ strongCount d ∧ 1 ≤ moderateCount d then ws * (9/5)
    else if 1 ≤ strongCount d then ws * (8/5)
    else if 2 ≤ moderateCount d then ws * (7/5)
    else if 1 ≤ moderateCount d then ws * (6/5)
    else if 3 ≤ weakCount d then ws * (11/10)
    else ws
  min (49/50) ws2

/-- The overall drugs confidence computed by `_comprehensive_analysis`. -/
def drugsConfidence (raw : DrugsRaw) : ℚ :=
  calculate_overall_confidence (comprehensiveDetections raw)

/-- The analysis result of `DrugsDetector` (the fields of the returned dict
that the claims mention). -/
structure DrugsResult where
  method : String
  is_drugs : Bool
  confidence : ℚ
  detections : Detections

/-- `DrugsDetector._fallback_analysis`: the detector backend is
unavailable. -/
def drugs_fallback_analysis : DrugsResult :=
  ⟨"fallback", false, 1/20, ⟨0, 0, 0, 0⟩⟩

/-- `DrugsDetector.analyze_image`: fallback when models are unavailable or
the image bytes fail to decode inside the detector, otherwise the
comprehensive analysis (drug flag at the strict 0.5 cutoff). -/
def drugs_analyze_image (available : Bool) (decode_ok : Bool)
    (raw : DrugsRaw) : DrugsResult :=
  if !available then drugs_fallback_analysis
  else if !decode_ok then drugs_fallback_analysis
  else
    let conf := drugsConfidence raw
    ⟨"ai_detection", conf > 1/2, conf, comprehensiveDetections raw⟩

/-- One NudeNet detection: a body-part class name and its score. -/
structure Detection where
  className : String
  score : ℚ
  deriving DecidableEq

/-- The `nude_classes` list of `NudityDetector._detailed_analysis`. -/
def nude_classes : List String :=
  ["EXPOSED_ANUS", "ARMPITS_EXPOSED", "BELLY_EXPOSED",
   "FEMALE_BREAST_EXPOSED", "MALE_BREAST_EXPOSED", "BUTTOCKS_EXPOSED",
   "FEMALE_GENITALIA_EXPOSED", "MALE_GENITALIA_EXPOSED", "THIGHS_EXPOSED"]

/-- A detection counts as a nude part when its class is a nude class and its
score exceeds 0.25. -/
def nudeFilter (d : Detection) : Bool :=
  d.className ∈ nude_classes && d.score > 1/4

/-- The nude-part detections accumulated by `_detailed_analysis`. -/
def nudeDetections (ds : List Detection) : List Detection :=
  ds.filter nudeFilter

/-- Raw inputs of `NudityDetector._backup_skin_detection` /
`_calculate_skin_exposure`: the summed skin-range pixel coverage (before any
boost), image height and width, and whether the array is 3-channel RGB. -/
structure BackupRaw where
  raw_skin_ratio : ℚ
  height : ℚ
  width : ℚ
  is_rgb : Bool
  deriving DecidableEq

/-- `NudityDetector._calculate_skin_exposure`: when the raw skin ratio
exceeds 0.3, a portrait aspect ratio (1.2–2.5) boosts it by 1.3 and a
landscape one (0.4–0.8) by 1.1; the result is capped at 1.0. -/
def calculate_skin_exposure (b : BackupRaw) : ℚ :=
  let ar := b.height / b.width
  let r :=
    if b.raw_skin_ratio > 3/10 then
      if 6/5 ≤ ar ∧ ar ≤ 5/2 then b.raw_skin_ratio * (13/10)
      else if 2/5 ≤ ar ∧ ar ≤ 4/5 then b.raw_skin_ratio * (11/10)
      else b.raw_skin_ratio
    else b.raw_skin_ratio
  min 1 r

/-- `NudityDetector._backup_skin_detection`: skin exposure above 0.4 is
capped at 0.8; otherwise it is halved.  Non-RGB arrays yield 0.0. -/
def backup_skin_detection (b : BackupRaw) : ℚ :=
  if b.is_rgb then
    let sc := calculate_skin_exposure b
    if sc > 2/5 then min (4/5) sc else sc * (1/2)
  else 0

/-- `NudityDetector._detailed_analysis`: average of the nude-part scores
boosted by +10% per additional detection (capped at 1.0); with zero nude
parts the backup skin path decides. -/
def nudityConfidence (ds : List Detection) (b : BackupRaw) : ℚ :=
  let nds := nudeDetections ds
  let n := nds.length
  if 0 < n then
    let avg := (nds.map (fun d => d.score)).sum / (n : ℚ)
    min 1 (avg * (1 + ((n : ℚ) - 1) * (1/10)))
  else backup_skin_detection b

/-- The analysis result of `NudityDetector` (the fields the claims
mention). -/
structure NudityResult where
  method : String
  is_nude : Bool
  confidence : ℚ

/-- `NudityDetector._fallback_analysis`. -/
def nudity_fallback_analysis : NudityResult :=
  ⟨"fallback", false, 1/20⟩

/-- `NudityDetector.analyze_image` / `_detailed_analysis`: fallback when
NudeNet failed to initialize, otherwise the detector path with its internal
0.3 nudity cutoff. -/
def nudity_analyze_image (available : Bool) (ds : List Detection)
    (b : BackupRaw) : NudityResult :=
  if !available then nudity_fallback_analysis
  else
    let conf := nudityConfidence ds b
    ⟨"detector", conf > 3/10, conf⟩

/-- One entry of the verdict's `categories` list
(`models.ModerationCategory`). -/
structure ModerationCategory where
  category : String
  confidence : ℚ
  flagged : Bool
  deriving DecidableEq

/-- The verdict built by `ModerationService.moderate_image`
(`models.ModerationResult`; the timestamp is not modelled). -/
structure ModerationResult where
  filename : String
  safe : Bool
  categories : List ModerationCategory
  overall_confidence : ℚ
  deriving DecidableEq

/-- Everything a single `moderate_image` call consumes: whether the bytes
decode, backend availability, and the raw pixel-level measurements of both
detectors. -/
structure ModerationInput where
  decode_ok : Bool
  nudenet_available : Bool
  drugs_available : Bool
  nudity_dets : List Detection
  backup : BackupRaw
  drugs_raw : DrugsRaw

/-- `ModerationService._detect_nudity_real`: 0.05 when NudeNet is
unavailable, otherwise the detector confidence. -/
def detect_nudity_real (inp : ModerationInput) : ℚ :=
  if !inp.nudenet_available then 1/20
  else (nudity_analyze_image inp.nudenet_available inp.nudity_dets inp.backup).confidence

/-- `ModerationService._detect_drugs_real`: the drugs detector confidence
(the detector returns its own 0.05 fallback when its backend is missing). -/
def detect_drugs_real (inp : ModerationInput) : ℚ :=
  (drugs_analyze_image inp.drugs_available inp.decode_ok inp.drugs_raw).confidence

/-- `ModerationService.__init__`: the configured categories. -/
def serviceCategories : List String := ["nudity", "drugs"]

/-- `ModerationService._analyze_categories` over the configured categories
(the dict only ever holds "nudity" and "drugs", so the conservative branch
for other category names is unreachable). -/
def analyze_categories (inp : ModerationInput) : List ModerationCategory :=
  serviceCategories.map (fun cat =>
    let conf := if cat = "nudity" then detect_nudity_real inp else detect_drugs_real inp
    ⟨cat, conf, should_flag cat conf⟩)

/-- The conservative verdict `moderate_image` returns when processing
fails: every configured category flagged with confidence 1.0. -/
def conservativeResult (filename : String) : ModerationResult :=
  ⟨filename, false, serviceCategories.map (fun c => ⟨c, 1, true⟩), 1⟩

/-- `ModerationService.moderate_image`: decode, analyze both categories,
aggregate; any failure yields the conservative verdict. -/
def moderate_image (inp : ModerationInput) (filename : String) : ModerationResult :=
  if inp.decode_ok then
    let cats := analyze_categories inp
    ⟨filename, cats.all (fun c => !c.flagged), cats,
     (cats.map (fun c => c.confidence)).sum / (cats.length : ℚ)⟩
  else conservativeResult filename

/-- `DrugsDetector._init_models`: the Hough-circle search parameters. -/
structure PillDetectorParams where
  min_radius : ℤ
  max_radius : ℤ
  param1 : ℤ
  param2 : ℤ
  min_dist : ℤ

/-- The `pill_detector_params` dict built at startup. -/
def pill_detector_params : PillDetectorParams :=
  ⟨5, 80, 50, 20, 15⟩

/-- The data `_validate_pill_circle` inspects for one candidate circle:
its position/radius, the image extent, and the pixel statistics OpenCV
computes over its interior and rim. -/
structure CircleMeasurements where
  img_w : ℤ
  img_h : ℤ
  x : ℤ
  y : ℤ
  r : ℤ
  is_skin_colored : Bool
  region_nonempty : Bool
  is_weapon_structure : Bool
  mean_intensity : ℚ
  std_dev : ℚ
  edge_smoothness : ℚ

/-- `DrugsDetector._validate_pill_circle`: bounds check, the 5–50 radius
range, skin-circle rejection, weapon-structure rejection, minimum
intensity, an intensity-dependent stddev ceiling, and the edge-smoothness
floor. -/
def validate_pill_circle (c : CircleMeasurements) : Bool :=
  if c.x - c.r < 0 || c.y - c.r < 0 || c.x + c.r ≥ c.img_w || c.y + c.r ≥ c.img_h then false
  else if !(5 ≤ c.r && c.r ≤ 50) then false
  else if c.is_skin_colored then false
  else if c.region_nonempty then
    if c.is_weapon_structure then false
    else if c.mean_intensity < 20 then false
    else if c.edge_smoothness < 3/10 then false
    else if c.mean_intensity > 230 then c.std_dev < 60
    else if c.mean_intensity > 180 then c.std_dev < 50
    else c.std_dev < 40
  else false

/-- The raw drug-detector measurements produced by a uniform (single flat
color) white RGB image, e.g. 300×300 of pixel (255,255,255).  Derivation
from the OpenCV semantics on a constant image:
grayscale is constant 255, so the Laplacian is 0 everywhere
(`texture_variance = 0`, `plant_texture_variance = 0`); every Gaussian blur
of a constant image is the same constant, so both absolute-difference
smoothness ratios are 1; every pixel has gray 255 > 200 (`bright_ratio = 1`);
in HSV the image is (0,0,255), inside the white powder range
([0,0,150]–[180,80,255], so `white_ratio = 1`) and the white pill-color
range ([0,0,200]–[180,30,255], so `pill_color_ratio = 1`) but outside every
brown/cream/green/skin range, all of which need saturation ≥ 10
(`brown_ratio = cream_ratio = max_green_ratio = skin_ratio = 0`);
morphological opening of a constant image is itself (`granular_ratio = 0`);
a constant image has no gradients and no Canny edges, so Hough circles,
blobs, contours and lines all come up empty. -/
def uniformWhiteRaw : DrugsRaw where
  skin_ratio := 0
  smoothness_ratio := 1
  organic_score := 0
  circles_found := false
  valid_circles := 0
  valid_blobs := 0
  pill_color_ratio := 1
  pill_shape_count := 0
  texture_variance := 0
  powder_smoothness := 1
  bright_ratio := 1
  white_ratio := 1
  brown_ratio := 0
  cream_ratio := 0
  granular_ratio := 0
  max_green_ratio := 0
  leaf_shape_count := 0
  plant_texture_variance := 0
  long_line_count := 0
  scale_found := false
  syringe_found := false



/-- A raw-measurement record whose skin ratio (0.4) trips the first
body-context disjunct; all other measurements zero. -/
def bodyContextRaw : DrugsRaw where
  skin_ratio := 2/5
  smoothness_ratio := 1
  organic_score := 0
  circles_found := false
  valid_circles := 0
  valid_blobs := 0
  pill_color_ratio := 0
  pill_shape_count := 0
  texture_variance := 0
  powder_smoothness := 1
  bright_ratio := 0
  white_ratio := 0
  brown_ratio := 0
  cream_ratio := 0
  granular_ratio := 0
  max_green_ratio := 0
  leaf_shape_count := 0
  plant_texture_variance := 0
  long_line_count := 0
  scale_found := false
  syringe_found := false

/-- A backup-path input with no skin pixels on a square RGB image. -/
def sampleBackup : BackupRaw := ⟨0, 1, 1, true⟩

/-- A backup-path input with summed skin ratio 0.5 on a 3:2 portrait RGB
image (aspect ratio 1.5). -/
def portraitBackup : BackupRaw := ⟨1/2, 3, 2, true⟩

/-- A backup-path input with summed skin ratio 0.31 on a square RGB
image. -/
def squareBackup : BackupRaw := ⟨31/100, 100, 100, true⟩

/-- A moderation request whose bytes fail to decode. -/
def failedDecodeInput : ModerationInput :=
  ⟨false, true, true, [], sampleBackup, uniformWhiteRaw⟩

/-- A moderation request with both detector backends unavailable. -/
def noBackendInput : ModerationInput :=
  ⟨true, false, false, [], sampleBackup, uniformWhiteRaw⟩

/-- A fully healthy moderation request on the uniform white image. -/
def okInput : ModerationInput :=
  ⟨true, true, true, [], sampleBackup, uniformWhiteRaw⟩

/-- A candidate circle of radius 10 centred in a 100×100 image, not
skin-colored, not in a weapon structure, mean intensity 100, stddev 10,
edge smoothness 0.5. -/
def samplePillCircle : CircleMeasurements :=
  ⟨100, 100, 50, 50, 10, false, true, false, 100, 10, 1/2⟩

theorem minBound {a b : ℚ} (ha : 0 ≤ a) (hb : 0 ≤ b) (ha1 : a ≤ 1) :
    0 ≤ min a b ∧ min a b ≤ 1 :=
  ⟨le_min ha hb, le_trans (min_le_left _ _) ha1⟩

theorem circleConfidence_bounds (v : ℕ) :
    0 ≤ circleConfidence v ∧ circleConfidence v ≤ 1 := by
  have hv : (0:ℚ) ≤ (v:ℚ) := Nat.cast_nonneg v
  unfold circleConfidence
  split_ifs
  · exact minBound (by norm_num) (by linarith) (by norm_num)
  · exact minBound (by norm_num) (by linarith) (by norm_num)
  · exact minBound (by norm_num) (by linarith) (by norm_num)
  · exact minBound (by norm_num) (by linarith) (by norm_num)
  · exact minBound (by norm_num) (by linarith) (by norm_num)
  · exact minBound (by norm_num) (by linarith) (by norm_num)
  · exact ⟨by norm_num, by norm_num⟩

theorem blobConfidence_bounds (n : ℕ) :
    0 ≤ blobConfidence n ∧ blobConfidence n ≤ 1 := by
  have hv : (0:ℚ) ≤ (n:ℚ) := Nat.cast_nonneg n
  unfold blobConfidence
  split_ifs
  · exact minBound (by norm_num) (by linarith) (by norm_num)
  · exact minBound (by norm_num) (by linarith) (by norm_num)
  · exact minBound (by norm_num) (by linarith) (by norm_num)
  · exact ⟨by norm_num, by norm_num⟩
  · exact ⟨by norm_num, by norm_num⟩

theorem pillColorConfidence_bounds (r : ℚ) :
    0 ≤ pillColorConfidence r ∧ pillColorConfidence r ≤ 1 := by
  unfold pillColorConfidence
  split_ifs
  · exact minBound (by norm_num) (by linarith) (by norm_num)
  · exact ⟨by linarith, by linarith⟩
  · exact ⟨by norm_num, by norm_num⟩

theorem pillShapeConfidence_bounds (n : ℕ) :
    0 ≤ pillShapeConfidence n ∧ pillShapeConfidence n ≤ 1 := by
  have hv : (0:ℚ) ≤ (n:ℚ) := Nat.cast_nonneg n
  unfold pillShapeConfidence
  split_ifs
  · exact minBound (by norm_num) (by linarith) (by norm_num)
  · exact ⟨by norm_num, by norm_num⟩
  · exact ⟨by norm_num, by norm_num⟩

theorem powderTextureScore_bounds (tv sm br : ℚ) :
    0 ≤ powderTextureScore tv sm br ∧ powderTextureScore tv sm br ≤ 1 := by
  unfold powderTextureScore
  dsimp only
  refine ⟨le_min (by norm_num) ?_, le_trans (min_le_left _ _) (by norm_num)⟩
  have h1 : (0:ℚ) ≤
      (if 20 < tv ∧ tv < 300 then min (7/10) (tv / 300)
       else if tv < 20 then (4:ℚ)/5 else 0) := by
    split_ifs with h h2
    · exact le_min (by norm_num) (by linarith [h.1])
    · norm_num
    · norm_num
  have h2 : (0:ℚ) ≤
      (if sm > 3/5 then (3:ℚ)/5 else if sm > 2/5 then (2:ℚ)/5
       else if sm > 1/5 then (1:ℚ)/5 else 0) := by
    split_ifs <;> norm_num
  have h3 : (0:ℚ) ≤
      (if br > 3/10 then min (4/5) (br * 2)
       else if br > 1/10 then min (1/2) (br * 3) else 0) := by
    split_ifs with h h2
    · exact le_min (by norm_num) (by linarith)
    · exact le_min (by norm_num) (by linarith)
    · norm_num
  linarith

theorem powderColorConfidence_bounds (w bn cm : ℚ) :
    0 ≤ powderColorConfidence w bn cm ∧ powderColorConfidence w bn cm ≤ 1 := by
  unfold powderColorConfidence
  dsimp only
  split_ifs
  · exact minBound (by norm_num) (by linarith) (by norm_num)
  · exact minBound (by norm_num) (by linarith) (by norm_num)
  · exact minBound (by norm_num) (by linarith) (by norm_num)
  · exact minBound (by norm_num) (by linarith) (by norm_num)
  · exact minBound (by norm_num) (by linarith) (by norm_num)
  · exact ⟨by norm_num, by norm_num⟩

theorem powderPatternConfidence_bounds (g : ℚ) :
    0 ≤ powderPatternConfidence g ∧ powderPatternConfidence g ≤ 1 := by
  unfold powderPatternConfidence
  split_ifs
  · exact minBound (by norm_num) (by linarith) (by norm_num)
  · exact minBound (by norm_num) (by linarith) (by norm_num)
  · exact minBound (by norm_num) (by linarith) (by norm_num)
  · exact ⟨by norm_num, by norm_num⟩

theorem plantColorConfidence_bounds (g : ℚ) :
    0 ≤ plantColorConfidence g ∧ plantColorConfidence g ≤ 1 := by
  unfold plantColorConfidence
  split_ifs
  · exact minBound (by norm_num) (by linarith) (by norm_num)
  · exact ⟨by linarith, by linarith⟩
  · exact ⟨by norm_num, by norm_num⟩

theorem leafPatternConfidence_bounds (n : ℕ) :
    0 ≤ leafPatternConfidence n ∧ leafPatternConfidence n ≤ 1 := by
  have hv : (0:ℚ) ≤ (n:ℚ) := Nat.cast_nonneg n
  unfold leafPatternConfidence
  split_ifs
  · exact minBound (by norm_num) (by linarith) (by norm_num)
  · exact ⟨by norm_num, by norm_num⟩
  · exact ⟨by norm_num, by norm_num⟩

theorem plantTextureConfidence_bounds (tv : ℚ) :
    0 ≤ plantTextureConfidence tv ∧ plantTextureConfidence tv ≤ 1 := by
  unfold plantTextureConfidence
  split_ifs with h
  · exact minBound (by norm_num) (by linarith [h.1]) (by norm_num)
  · exact ⟨by norm_num, by norm_num⟩

theorem pipeConfidence_bounds (n : ℕ) :
    0 ≤ pipeConfidence n ∧ pipeConfidence n ≤ 1 := by
  have hv : (0:ℚ) ≤ (n:ℚ) := Nat.cast_nonneg n
  unfold pipeConfidence
  split_ifs
  · exact minBound (by norm_num) (by linarith) (by norm_num)
  · exact ⟨by norm_num, by norm_num⟩

theorem scaleConfidence_bounds (b : Bool) :
    0 ≤ scaleConfidence b ∧ scaleConfidence b ≤ 1 := by
  unfold scaleConfidence
  split_ifs
  · exact ⟨by norm_num, by norm_num⟩
  · exact ⟨by norm_num, by norm_num⟩

theorem syringeConfidence_bounds (b : Bool) :
    0 ≤ syringeConfidence b ∧ syringeConfidence b ≤ 1 := by
  unfold syringeConfidence
  split_ifs
  · exact ⟨by norm_num, by norm_num⟩
  · exact ⟨by norm_num, by norm_num⟩

theorem detect_pills_advanced_bounds (raw : DrugsRaw) :
    0 ≤ detect_pills_advanced raw ∧ detect_pills_advanced raw ≤ 1 := by
  unfold detect_pills_advanced
  dsimp only
  refine minBound (by norm_num) ?_ (by norm_num)
  have hc : (0:ℚ) ≤ (if raw.circles_found then circleConfidence raw.valid_circles else 0) := by
    split_ifs
    · exact (circleConfidence_bounds _).1
    · norm_num
  have hb := (blobConfidence_bounds raw.valid_blobs).1
  have hcol := (pillColorConfidence_bounds raw.pill_color_ratio).1
  have hs := (pillShapeConfidence_bounds raw.pill_shape_count).1
  linarith

theorem detect_powder_advanced_bounds (raw : DrugsRaw) :
    0 ≤ detect_powder_advanced raw ∧ detect_powder_advanced raw ≤ 1 := by
  unfold detect_powder_advanced
  refine minBound (by norm_num) ?_ (by norm_num)
  have ht := (powderTextureScore_bounds raw.texture_variance raw.powder_smoothness raw.bright_ratio).1
  have hc := (powderColorConfidence_bounds raw.white_ratio raw.brown_ratio raw.cream_ratio).1
  have hp := (powderPatternConfidence_bounds raw.granular_ratio).1
  linarith

theorem detect_plants_advanced_bounds (raw : DrugsRaw) :
    0 ≤ detect_plants_advanced raw ∧ detect_plants_advanced raw ≤ 1 := by
  unfold detect_plants_advanced
  refine minBound (by norm_num) ?_ (by norm_num)
  have hc := (plantColorConfidence_bounds raw.max_green_ratio).1
  have hl := (leafPatternConfidence_bounds raw.leaf_shape_count).1
  have ht := (plantTextureConfidence_bounds raw.plant_texture_variance).1
  linarith

theorem detect_paraphernalia_advanced_bounds (raw : DrugsRaw) :
    0 ≤ detect_paraphernalia_advanced raw ∧ detect_paraphernalia_advanced raw ≤ 1 := by
  unfold detect_paraphernalia_advanced
  refine minBound (by norm_num) ?_ (by norm_num)
  exact le_trans (pipeConfidence_bounds raw.long_line_count).1 (le_max_left _ _)

theorem comprehensiveDetections_bounds (raw : DrugsRaw) :
    (0 ≤ (comprehensiveDetections raw).pills ∧ (comprehensiveDetections raw).pills ≤ 1)
    ∧ (0 ≤ (comprehensiveDetections raw).powder ∧ (comprehensiveDetections raw).powder ≤ 1)
    ∧ (0 ≤ (comprehensiveDetections raw).plants ∧ (comprehensiveDetections raw).plants ≤ 1)
    ∧ (0 ≤ (comprehensiveDetections raw).paraphernalia
        ∧ (comprehensiveDetections raw).paraphernalia ≤ 1) := by
  obtain ⟨hp1, hp2⟩ := detect_pills_advanced_bounds raw
  obtain ⟨hw1, hw2⟩ := detect_powder_advanced_bounds raw
  obtain ⟨hl1, hl2⟩ := detect_plants_advanced_bounds raw
  obtain ⟨hr1, hr2⟩ := detect_paraphernalia_advanced_bounds raw
  unfold comprehensiveDetections baseDetections
  dsimp only
  split_ifs
  · exact ⟨⟨by linarith, by linarith⟩, ⟨by linarith, by linarith⟩,
      ⟨by linarith, by linarith⟩, ⟨by linarith, by linarith⟩⟩
  · exact ⟨⟨hp1, hp2⟩, ⟨hw1, hw2⟩, ⟨hl1, hl2⟩, ⟨hr1, hr2⟩⟩

theorem calculate_overall_confidence_bounds (d : Detections)
    (hp : 0 ≤ d.pills) (hw : 0 ≤ d.powder) (hl : 0 ≤ d.plants)
    (hr : 0 ≤ d.paraphernalia) :
    0 ≤ calculate_overall_confidence d ∧ calculate_overall_confidence d ≤ 1 := by
  unfold calculate_overall_confidence
  dsimp only
  have hws : (0:ℚ) ≤ d.pills * (1/2) + d.powder * (7/20) + d.plants * (1/10)
      + d.paraphernalia * (1/20) := by linarith
  split_ifs
  · exact minBound (by norm_num) (by linarith) (by norm_num)
  · exact minBound (by norm_num) (by linarith) (by norm_num)
  · exact minBound (by norm_num) (by linarith) (by norm_num)
  · exact minBound (by norm_num) (by linarith) (by norm_num)
  · exact minBound (by norm_num) (by linarith) (by norm_num)
  · exact minBound (by norm_num) (by linarith) (by norm_num)
  · exact minBound (by norm_num) (by linarith) (by norm_num)

theorem drugsConfidence_bounds (raw : DrugsRaw) :
    0 ≤ drugsConfidence raw ∧ drugsConfidence raw ≤ 1 := by
  obtain ⟨⟨h1, _⟩, ⟨h2, _⟩, ⟨h3, _⟩, ⟨h4, _⟩⟩ := comprehensiveDetections_bounds raw
  exact calculate_overall_confidence_bounds _ h1 h2 h3 h4

theorem nudeDetections_score_nonneg (ds : List Detection) :
    0 ≤ ((nudeDetections ds).map (fun d => d.score)).sum := by
  apply List.sum_nonneg
  intro x hx
  obtain ⟨d, hd, rfl⟩ := List.mem_map.mp hx
  have hf : nudeFilter d = true := List.of_mem_filter hd
  simp only [nudeFilter, Bool.and_eq_true, decide_eq_true_eq] at hf
  linarith [hf.2]

theorem calculate_skin_exposure_bounds (b : BackupRaw) (h : 0 ≤ b.raw_skin_ratio) :
    0 ≤ calculate_skin_exposure b ∧ calculate_skin_exposure b ≤ 1 := by
  unfold calculate_skin_exposure
  dsimp only
  refine ⟨le_min (by norm_num) ?_, le_trans (min_le_left _ _) (by norm_num)⟩
  split_ifs <;> linarith

theorem backup_skin_detection_bounds (b : BackupRaw) (h : 0 ≤ b.raw_skin_ratio) :
    0 ≤ backup_skin_detection b ∧ backup_skin_detection b ≤ 1 := by
  obtain ⟨h1, h2⟩ := calculate_skin_exposure_bounds b h
  unfold backup_skin_detection
  dsimp only
  split_ifs
  · exact minBound (by norm_num) (by linarith) (by norm_num)
  · exact ⟨by linarith, by linarith⟩
  · exact ⟨by norm_num, by norm_num⟩

theorem nudityConfidence_bounds (ds : List Detection) (b : BackupRaw)
    (h : 0 ≤ b.raw_skin_ratio) :
    0 ≤ nudityConfidence ds b ∧ nudityConfidence ds b ≤ 1 := by
  unfold nudityConfidence
  dsimp only
  split_ifs with hn
  · have hsum := nudeDetections_score_nonneg ds
    have hlen1 : 1 ≤ (nudeDetections ds).length := hn
    have hlen : (1:ℚ) ≤ ((nudeDetections ds).length : ℚ) := by exact_mod_cast hlen1
    refine minBound (by norm_num) ?_ (by norm_num)
    have havg : 0 ≤ ((nudeDetections ds).map (fun d => d.score)).sum
        / ((nudeDetections ds).length : ℚ) := div_nonneg hsum (by linarith)
    have hboost : (0:ℚ) ≤ 1 + (((nudeDetections ds).length : ℚ) - 1) * (1/10) := by
      linarith
    exact mul_nonneg havg hboost
  · exact backup_skin_detection_bounds b h

theorem detect_nudity_real_bounds (inp : ModerationInput)
    (h : 0 ≤ inp.backup.raw_skin_ratio) :
    0 ≤ detect_nudity_real inp ∧ detect_nudity_real inp ≤ 1 := by
  unfold detect_nudity_real nudity_analyze_image
  cases hav : inp.nudenet_available <;> simp only [hav, Bool.not_false, Bool.not_true,
    if_true, if_false, Bool.false_eq_true, Bool.true_eq_false, ite_true, ite_false]
  · norm_num
  · exact nudityConfidence_bounds inp.nudity_dets inp.backup h

theorem detect_drugs_real_bounds (inp : ModerationInput) :
    0 ≤ detect_drugs_real inp ∧ detect_drugs_real inp ≤ 1 := by
  unfold detect_drugs_real drugs_analyze_image drugs_fallback_analysis
  cases hav : inp.drugs_available <;> cases hdec : inp.decode_ok <;>
    simp only [hav, hdec, Bool.not_false, Bool.not_true, if_true, if_false,
      Bool.false_eq_true, Bool.true_eq_false, ite_true, ite_false]
  · norm_num
  · norm_num
  · norm_num
  · exact drugsConfidence_bounds inp.drugs_raw

/-- C2: for every category and confidence, the decision step flags exactly
when the confidence strictly exceeds the category's fixed threshold
(nudity 0.3, drugs 0.5); a confidence equal to the threshold is not
flagged, and any confidence strictly above it is flagged. -/
theorem c2_threshold_decision :
    (∀ conf : ℚ, should_flag "nudity" conf = decide (conf > 3/10))
    ∧ (∀ conf : ℚ, should_flag "drugs" conf = decide (conf > 1/2))
    ∧ should_flag "nudity" (3/10) = false
    ∧ should_flag "drugs" (1/2) = false
    ∧ should_flag "nudity" (3/10 + 1/1000) = true
    ∧ should_flag "drugs" (1/2 + 1/1000) = true := by
  refine ⟨fun conf => ?_, fun conf => ?_, ?_, ?_, ?_, ?_⟩ <;>
    simp [should_flag, moderationThreshold] <;> norm_num

/-- C4: the fused drugs confidence is the 0.50/0.35/0.10/0.05-weighted sum
of the four signals, multiplied by the boost factor of the first matching
rule (≥2 strong ×2.0; ≥1 strong and ≥1 moderate ×1.8; ≥1 strong ×1.6;
≥2 moderate ×1.4; ≥1 moderate ×1.2; ≥3 weak ×1.1; else ×1.0), clamped
above at 0.98. -/
theorem c4_fusion_formula (d : Detections) :
    calculate_overall_confidence d =
      min (49/50)
        ((d.pills * (1/2) + d.powder * (7/20) + d.plants * (1/10)
            + d.paraphernalia * (1/20)) *
          (if 2 ≤ strongCount d then 2
           else if 1 ≤ strongCount d ∧ 1 ≤ moderateCount d then 9/5
           else if 1 ≤ strongCount d then 8/5
           else if 2 ≤ moderateCount d then 7/5
           else if 1 ≤ moderateCount d then 6/5
           else if 3 ≤ weakCount d then 11/10
           else 1)) := by
  unfold calculate_overall_confidence
  dsimp only
  split_ifs <;> ring

theorem circleConfidence_eq_ge30 (v : ℕ) (h : 30 ≤ v) :
    circleConfidence v = min (49/50) (4/5 + (v:ℚ) * (1/200)) := by
  unfold circleConfidence
  rw [if_pos h]

theorem circleConfidence_eq_ge20 (v : ℕ) (h : 20 ≤ v) (h2 : v < 30) :
    circleConfidence v = min (19/20) (7/10 + (v:ℚ) * (1/100)) := by
  unfold circleConfidence
  rw [if_neg (by omega), if_pos h]

theorem circleConfidence_eq_ge10 (v : ℕ) (h : 10 ≤ v) (h2 : v < 20) :
    circleConfidence v = min (9/10) (3/5 + (v:ℚ) * (1/50)) := by
  unfold circleConfidence
  rw [if_neg (by omega), if_neg (by omega), if_pos h]

theorem circleConfidence_step (n : ℕ) (hn : 10 ≤ n) :
    circleConfidence n ≤ circleConfidence (n + 1) := by
  by_cases h30 : 30 ≤ n
  · rw [circleConfidence_eq_ge30 n h30, circleConfidence_eq_ge30 (n+1) (by omega)]
    apply min_le_min le_rfl
    push_cast
    linarith
  · by_cases h20 : 20 ≤ n
    · by_cases h29 : n = 29
      · subst h29
        norm_num [circleConfidence]
      · rw [circleConfidence_eq_ge20 n h20 (by omega),
          circleConfidence_eq_ge20 (n+1) (by omega) (by omega)]
        apply min_le_min le_rfl
        push_cast
        linarith
    · by_cases h19 : n = 19
      · subst h19
        norm_num [circleConfidence]
      · rw [circleConfidence_eq_ge10 n hn (by omega),
          circleConfidence_eq_ge10 (n+1) (by omega) (by omega)]
        apply min_le_min le_rfl
        push_cast
        linarith

theorem circleConfidence_mono_from10 (m n : ℕ) (hm : 10 ≤ m) (hmn : m ≤ n) :
    circleConfidence m ≤ circleConfidence n := by
  induction n, hmn using Nat.le_induction with
  | base => exact le_rfl
  | succ k hk ih => exact le_trans ih (circleConfidence_step k (le_trans hm hk))

theorem circleConfidence_mono_le9 (m n : ℕ) (hmn : m ≤ n) (h9 : n ≤ 9) :
    circleConfidence m ≤ circleConfidence n := by
  interval_cases n <;> interval_cases m <;> norm_num [circleConfidence]

/-- C6 counterexample: the validated-circle ladder is not monotone — nine
validated circles give confidence 0.85 but ten give 0.80. -/
theorem c6_counterexample_ladder_drop :
    circleConfidence 9 = 17/20 ∧ circleConfidence 10 = 4/5
      ∧ ¬ circleConfidence 9 ≤ circleConfidence 10 := by
  norm_num [circleConfidence]

/-- C6 (amended): the validated-circle ladder is non-decreasing on counts
0–9 and non-decreasing from 10 upward, but drops from 0.85 to 0.80 between
counts 9 and 10; ≥30 circles map into [0.95, 0.98], one circle maps to
0.45 (within 0.3–0.65), and zero validated circles map to the 0.2
baseline. -/
theorem c6_amended_circle_ladder :
    (∀ m n : ℕ, m ≤ n → n ≤ 9 → circleConfidence m ≤ circleConfidence n)
    ∧ (∀ m n : ℕ, 10 ≤ m → m ≤ n → circleConfidence m ≤ circleConfidence n)
    ∧ (∀ v : ℕ, 30 ≤ v → 19/20 ≤ circleConfidence v ∧ circleConfidence v ≤ 49/50)
    ∧ circleConfidence 1 = 9/20
    ∧ (3/10 ≤ circleConfidence 1 ∧ circleConfidence 1 ≤ 13/20)
    ∧ circleConfidence 0 = 1/5 := by
  refine ⟨circleConfidence_mono_le9, circleConfidence_mono_from10, ?_, ?_, ?_, ?_⟩
  · intro v hv
    rw [circleConfidence_eq_ge30 v hv]
    constructor
    · apply le_min (by norm_num)
      have h30 : (30:ℚ) ≤ (v:ℚ) := by exact_mod_cast hv
      linarith
    · exact min_le_left _ _
  · norm_num [circleConfidence]
  · norm_num [circleConfidence]
  · norm_num [circleConfidence]

theorem c6_amended_witness :
    circleConfidence 2 ≤ circleConfidence 7
    ∧ circleConfidence 10 ≤ circleConfidence 40
    ∧ 19/20 ≤ circleConfidence 35 ∧ circleConfidence 35 ≤ 49/50 :=
  ⟨c6_amended_circle_ladder.1 2 7 (by norm_num) (by norm_num),
   c6_amended_circle_ladder.2.1 10 40 (by norm_num) (by norm_num),
   (c6_amended_circle_ladder.2.2.1 35 (by norm_num)).1,
   (c6_amended_circle_ladder.2.2.1 35 (by norm_num)).2⟩

/-- C7 (code evaluation at the failing input): on the raw measurements of a
uniform white image the drugs pipeline fuses pills 0.14 and powder 0.735
into an overall confidence of 0.5236 — far above the 0.1 bound the
specification asserts for flat images, and above the 0.5 drugs flagging
threshold. -/
theorem c7_uniform_white_image_eval :
    drugsConfidence uniformWhiteRaw = 1309/2500
    ∧ ¬ drugsConfidence uniformWhiteRaw < 1/10
    ∧ should_flag "drugs" (drugsConfidence uniformWhiteRaw) = true := by
  have hp : detect_pills_advanced uniformWhiteRaw = 7/50 := by
    norm_num [detect_pills_advanced, circleConfidence, blobConfidence,
      pillColorConfidence, pillShapeConfidence, uniformWhiteRaw]
  have hw : detect_powder_advanced uniformWhiteRaw = 147/200 := by
    norm_num [detect_powder_advanced, powderTextureScore, powderColorConfidence,
      powderPatternConfidence, uniformWhiteRaw]
  have hl : detect_plants_advanced uniformWhiteRaw = 0 := by
    norm_num [detect_plants_advanced, plantColorConfidence, leafPatternConfidence,
      plantTextureConfidence, uniformWhiteRaw]
  have hr : detect_paraphernalia_advanced uniformWhiteRaw = 0 := by
    norm_num [detect_paraphernalia_advanced, pipeConfidence, scaleConfidence,
      syringeConfidence, containerConfidence, uniformWhiteRaw]
  have hctx : detect_nudity_context uniformWhiteRaw = false := by
    norm_num [detect_nudity_context, uniformWhiteRaw]
  have hd : comprehensiveDetections uniformWhiteRaw = ⟨7/50, 147/200, 0, 0⟩ := by
    unfold comprehensiveDetections baseDetections
    rw [hctx, hp, hw, hl, hr]
    norm_num
  have h : drugsConfidence uniformWhiteRaw = 1309/2500 := by
    unfold drugsConfidence
    rw [hd]
    norm_num [calculate_overall_confidence, strongCount, moderateCount, weakCount]
  refine ⟨h, by rw [h]; norm_num, ?_⟩
  rw [h]
  simp [should_flag, moderationThreshold]
  norm_num

/-- C9 counterexample: with zero primary detections and a summed skin ratio
of 0.31 on a square image, the backup path does not return the boosted
value capped at 0.8 (which would be 0.31); it halves it to 0.155 because
the boosted value does not exceed 0.4. -/
theorem c9_counterexample_low_ratio_halved :
    nudityConfidence [] squareBackup = 31/200
    ∧ calculate_skin_exposure squareBackup = 31/100
    ∧ ¬ nudityConfidence [] squareBackup
        = min (4/5) (calculate_skin_exposure squareBackup) := by
  have he : calculate_skin_exposure squareBackup = 31/100 := by
    norm_num [calculate_skin_exposure, squareBackup]
  have hc : nudityConfidence [] squareBackup = 31/200 := by
    norm_num [nudityConfidence, nudeDetections, backup_skin_detection,
      calculate_skin_exposure, squareBackup]
  refine ⟨hc, he, ?_⟩
  rw [hc, he]
  norm_num

/-- C9 (amended): with zero primary part detections the backup skin path
determines the confidence; a skin ratio above 0.3 is boosted by the aspect
ratio (portrait 1.2–2.5 ×1.3, landscape 0.4–0.8 ×1.1, capped at 1.0), and
the confidence is the boosted value capped at 0.8 when that value exceeds
0.4, and half the boosted value otherwise; ratio 0.5 with aspect ratio 1.5
yields 0.65, the boosted capped value. -/
theorem c9_amended_backup_path (ds : List Detection) (b : BackupRaw)
    (hzero : nudeDetections ds = []) (hrgb : b.is_rgb = true) :
    (nudityConfidence ds b =
      if calculate_skin_exposure b > 2/5 then min (4/5) (calculate_skin_exposure b)
      else calculate_skin_exposure b * (1/2))
    ∧ (b.raw_skin_ratio > 3/10 → 6/5 ≤ b.height / b.width → b.height / b.width ≤ 5/2 →
        calculate_skin_exposure b = min 1 (b.raw_skin_ratio * (13/10)))
    ∧ (b.raw_skin_ratio > 3/10 → 2/5 ≤ b.height / b.width → b.height / b.width ≤ 4/5 →
        calculate_skin_exposure b = min 1 (b.raw_skin_ratio * (11/10)))
    ∧ nudityConfidence [] portraitBackup = 13/20 := by
  refine ⟨?_, ?_, ?_, ?_⟩
  · unfold nudityConfidence backup_skin_detection
    rw [hzero, hrgb]
    norm_num
  · intro h1 h2 h3
    unfold calculate_skin_exposure
    dsimp only
    rw [if_pos h1, if_pos ⟨h2, h3⟩]
  · intro h1 h2 h3
    unfold calculate_skin_exposure
    dsimp only
    rw [if_pos h1, if_neg (by rintro ⟨ha, hb⟩; linarith), if_pos ⟨h2, h3⟩]
  · norm_num [nudityConfidence, nudeDetections, backup_skin_detection,
      calculate_skin_exposure, portraitBackup]

theorem c9_amended_witness :
    nudityConfidence [] portraitBackup = 13/20 :=
  (c9_amended_backup_path [] portraitBackup rfl rfl).2.2.2

set_option maxHeartbeats 1000000 in
/-- C10: a validated pill circle always has radius in [5, 50], even though
the Hough search is configured with min_radius 5 and max_radius 80; any
candidate with radius above 50 is rejected by validation. -/
theorem c10_pill_radius_invariant :
    pill_detector_params.min_radius = 5 ∧ pill_detector_params.max_radius = 80
    ∧ (∀ c : CircleMeasurements, validate_pill_circle c = true → 5 ≤ c.r ∧ c.r ≤ 50)
    ∧ (∀ c : CircleMeasurements, 50 < c.r → validate_pill_circle c = false) := by
  refine ⟨rfl, rfl, ?_, ?_⟩
  · intro c h
    unfold validate_pill_circle at h
    split_ifs at h with h1 h2
    all_goals first
      | (simp only [Bool.not_eq_true, Bool.not_eq_false', Bool.and_eq_true,
           decide_eq_true_eq] at h2
         exact h2)
      | simp at h
  · intro c h50
    unfold validate_pill_circle
    split_ifs with h1 h2
    · rfl
    · rfl
    all_goals
      exfalso
      simp only [Bool.not_eq_true, Bool.not_eq_false', Bool.and_eq_true,
        decide_eq_true_eq] at h2
      omega

theorem c10_witness :
    5 ≤ samplePillCircle.r ∧ samplePillCircle.r ≤ 50 := by
  have hv : validate_pill_circle samplePillCircle = true := by
    norm_num [validate_pill_circle, samplePillCircle]
  exact c10_pill_radius_invariant.2.2.1 samplePillCircle hv

/-- C3: whenever the image bytes fail to decode, `moderate_image` returns
the conservative verdict: both configured categories appear with
confidence 1.0 and flagged, and the verdict is unsafe. -/
theorem c3_decode_failure_conservative (inp : ModerationInput) (filename : String)
    (h : inp.decode_ok = false) :
    moderate_image inp filename =
      ⟨filename, false, [⟨"nudity", 1, true⟩, ⟨"drugs", 1, true⟩], 1⟩ := by
  unfold moderate_image
  rw [h]
  simp [conservativeResult, serviceCategories]

theorem c3_witness :
    moderate_image failedDecodeInput "broken.png" =
      ⟨"broken.png", false, [⟨"nudity", 1, true⟩, ⟨"drugs", 1, true⟩], 1⟩ :=
  c3_decode_failure_conservative failedDecodeInput "broken.png" rfl

/-- C5: the body/nudity-context boolean is raised exactly when
skin > 0.3, or (skin > 0.15 and smoothness > 0.5), or (skin > 0.2 and
organic > 0.3); and when it is raised each drug signal entering fusion is
0.3 times its unpenalized value. -/
theorem c5_context_and_penalty (raw : DrugsRaw) :
    (detect_nudity_context raw = true ↔
      (raw.skin_ratio > 3/10 ∨ (raw.skin_ratio > 3/20 ∧ raw.smoothness_ratio > 1/2)
        ∨ (raw.skin_ratio > 1/5 ∧ raw.organic_score > 3/10)))
    ∧ (detect_nudity_context raw = true →
        comprehensiveDetections raw =
          ⟨(3/10) * detect_pills_advanced raw, (3/10) * detect_powder_advanced raw,
           (3/10) * detect_plants_advanced raw,
           (3/10) * detect_paraphernalia_advanced raw⟩) := by
  constructor
  · unfold detect_nudity_context
    simp only [Bool.or_eq_true, Bool.and_eq_true, decide_eq_true_eq]
    tauto
  · intro h
    unfold comprehensiveDetections baseDetections
    rw [h]
    simp only [if_pos, Detections.mk.injEq]
    exact ⟨mul_comm _ _, mul_comm _ _, mul_comm _ _, mul_comm _ _⟩

theorem c5_witness :
    comprehensiveDetections bodyContextRaw =
      ⟨(3/10) * detect_pills_advanced bodyContextRaw,
       (3/10) * detect_powder_advanced bodyContextRaw,
       (3/10) * detect_plants_advanced bodyContextRaw,
       (3/10) * detect_paraphernalia_advanced bodyContextRaw⟩ := by
  have hctx : detect_nudity_context bodyContextRaw = true := by
    norm_num [detect_nudity_context, bodyContextRaw]
  exact (c5_context_and_penalty bodyContextRaw).2 hctx

/-- C8: when a detector backend failed to initialize, that category's
entry carries the fixed fallback confidence 0.05 and is not flagged, the
detector fallback results are tagged with method "fallback", a confidence
of 0.05 is below every category threshold, and each category's confidence
depends only on its own detector inputs. -/
theorem c8_backend_fallback (inp : ModerationInput) (filename : String)
    (hdec : inp.decode_ok = true) :
    (inp.drugs_available = false →
      (moderate_image inp filename).categories =
        [⟨"nudity", detect_nudity_real inp, should_flag "nudity" (detect_nudity_real inp)⟩,
         ⟨"drugs", 1/20, false⟩])
    ∧ (inp.nudenet_available = false →
      (moderate_image inp filename).categories =
        [⟨"nudity", 1/20, false⟩,
         ⟨"drugs", detect_drugs_real inp, should_flag "drugs" (detect_drugs_real inp)⟩])
    ∧ drugs_fallback_analysis.confidence = 1/20
    ∧ drugs_fallback_analysis.method = "fallback"
    ∧ nudity_fallback_analysis.confidence = 1/20
    ∧ nudity_fallback_analysis.method = "fallback"
    ∧ (∀ cat : String, should_flag cat (1/20) = false)
    ∧ (∀ inp2 : ModerationInput, inp2.nudenet_available = inp.nudenet_available →
        inp2.nudity_dets = inp.nudity_dets → inp2.backup = inp.backup →
        detect_nudity_real inp2 = detect_nudity_real inp)
    ∧ (∀ inp2 : ModerationInput, inp2.drugs_available = inp.drugs_available →
        inp2.decode_ok = inp.decode_ok → inp2.drugs_raw = inp.drugs_raw →
        detect_drugs_real inp2 = detect_drugs_real inp) := by
  have hflag : ∀ cat : String, should_flag cat (1/20) = false := by
    intro cat
    simp only [should_flag, moderationThreshold]
    split_ifs <;> norm_num
  refine ⟨?_, ?_, rfl, rfl, rfl, rfl, hflag, ?_, ?_⟩
  · intro hda
    have hdr : detect_drugs_real inp = 1/20 := by
      unfold detect_drugs_real drugs_analyze_image drugs_fallback_analysis
      rw [hda]
      norm_num
    unfold moderate_image
    rw [hdec]
    simp [analyze_categories, serviceCategories, hdr, hflag]
    rw [← one_div]
    exact hflag _
  · intro hnn
    have hnr : detect_nudity_real inp = 1/20 := by
      unfold detect_nudity_real
      rw [hnn]
      norm_num
    unfold moderate_image
    rw [hdec]
    simp [analyze_categories, serviceCategories, hnr, hflag]
    rw [← one_div]
    exact hflag _
  · intro inp2 h1 h2 h3
    unfold detect_nudity_real nudity_analyze_image
    rw [h1, h2, h3]
  · intro inp2 h1 h2 h3
    unfold detect_drugs_real drugs_analyze_image
    rw [h1, h2, h3]

theorem c8_witness :
    (moderate_image noBackendInput "img.png").categories =
      [⟨"nudity", 1/20, false⟩,
       ⟨"drugs", detect_drugs_real noBackendInput,
        should_flag "drugs" (detect_drugs_real noBackendInput)⟩] :=
  (c8_backend_fallback noBackendInput "img.png" rfl).2.1 rfl

/-- C1: every verdict satisfies `safe` iff no category is flagged, the
overall confidence is the arithmetic mean of the per-category confidences,
and each per-category confidence (hence also the overall confidence) lies
in [0,1]. -/
theorem c1_verdict_invariants (inp : ModerationInput) (filename : String)
    (h : 0 ≤ inp.backup.raw_skin_ratio) :
    ((moderate_image inp filename).safe = true ↔
      ∀ c ∈ (moderate_image inp filename).categories, c.flagged = false)
    ∧ (moderate_image inp filename).overall_confidence
        = ((moderate_image inp filename).categories.map (fun c => c.confidence)).sum
          / ((moderate_image inp filename).categories.length : ℚ)
    ∧ (∀ c ∈ (moderate_image inp filename).categories,
        0 ≤ c.confidence ∧ c.confidence ≤ 1)
    ∧ 0 ≤ (moderate_image inp filename).overall_confidence
    ∧ (moderate_image inp filename).overall_confidence ≤ 1 := by
  obtain ⟨hn1, hn2⟩ := detect_nudity_real_bounds inp h
  obtain ⟨hd1, hd2⟩ := detect_drugs_real_bounds inp
  by_cases hdec : inp.decode_ok
  · have hcats : (moderate_image inp filename).categories =
        [⟨"nudity", detect_nudity_real inp, should_flag "nudity" (detect_nudity_real inp)⟩,
         ⟨"drugs", detect_drugs_real inp, should_flag "drugs" (detect_drugs_real inp)⟩] := by
      unfold moderate_image
      rw [hdec]
      simp [analyze_categories, serviceCategories]
    have hsafe : (moderate_image inp filename).safe =
        ((moderate_image inp filename).categories.all (fun c => !c.flagged)) := by
      unfold moderate_image
      rw [hdec]
      simp
    have hover : (moderate_image inp filename).overall_confidence =
        ((moderate_image inp filename).categories.map (fun c => c.confidence)).sum
          / ((moderate_image inp filename).categories.length : ℚ) := by
      unfold moderate_image
      rw [hdec]
      simp
    have hsum : ((moderate_image inp filename).categories.map (fun c => c.confidence)).sum
        = detect_nudity_real inp + detect_drugs_real inp := by
      rw [hcats]
      simp
    have hlen : ((moderate_image inp filename).categories.length : ℚ) = 2 := by
      rw [hcats]
      simp
    refine ⟨?_, hover, ?_, ?_, ?_⟩
    · rw [hsafe]
      simp [List.all_eq_true]
    · intro c hc
      rw [hcats] at hc
      simp only [List.mem_cons, List.not_mem_nil, or_false] at hc
      rcases hc with rfl | rfl
      · exact ⟨hn1, hn2⟩
      · exact ⟨hd1, hd2⟩
    · rw [hover, hsum, hlen]
      linarith
    · rw [hover, hsum, hlen]
      linarith
  · have hm : moderate_image inp filename = conservativeResult filename := by
      unfold moderate_image
      simp only [Bool.not_eq_true] at hdec
      rw [hdec]
      simp
    rw [hm]
    unfold conservativeResult serviceCategories
    refine ⟨?_, ?_, ?_, ?_, ?_⟩
    · simp
    · simp
    · intro c hc
      simp only [List.map_cons, List.map_nil, List.mem_cons, List.not_mem_nil,
        or_false] at hc
      rcases hc with rfl | rfl <;> exact ⟨by norm_num, by norm_num⟩
    · norm_num
    · norm_num

theorem c1_witness :
    0 ≤ (moderate_image okInput "ok.png").overall_confidence
    ∧ (moderate_image okInput "ok.png").overall_confidence ≤ 1 :=
  ⟨(c1_verdict_invariants okInput "ok.png" (by norm_num [okInput, sampleBackup])).2.2.2.1,
   (c1_verdict_invariants okInput "ok.png" (by norm_num [okInput, sampleBackup])).2.2.2.2⟩
